import Mathlib

/-!
Shallow embedding of the knfs-library/csrf middleware (src/lib/cjs/index.js)
and verification of the frozen claims about its token lifecycle.

The JS module keeps one module-level configuration object `csrf` (lines
55-124) holding the parameter name, storage kind, token length and the three
pluggable hooks.  `generate` (lines 140-187) merges a user configuration into
that module-level object and returns the issue middleware; `protect`
(lines 216-233) is the validate middleware.

Modelling conventions:
- JS objects touched by the middleware (`req.session`, `req.cookies`,
  `req.body`, `req.headers`) are association lists over `String`;
  `none` at `Req.session` / `Req.cookies` models the JS `undefined` that
  occurs when the corresponding host middleware is missing.
- JS truthiness on string-or-undefined values (the `|| null`, `||` and
  `!token` tests in the source) is captured by `orNull` / `jsOr`: `none`
  and the empty string are falsy.
- A JS `TypeError` thrown by a property access on `undefined` is an
  `Except.error`; `protect` and the issue middleware catch it and call
  `next(error)`, modelled by the `errored` / `nextErr` outcomes.
- The hooks are function-valued fields of the configuration record, with
  the source's defaults as concrete Lean functions.  The failure hook is a
  response transformer (the default one sends 403 and does not call the
  continuation, line 121-123).
- Each middleware result carries a trace of the storage operations
  performed (read / clear / write of the canonical token), so that
  frame claims ("performs no read", "performs no clear") are statable.
-/

namespace Knfs

/-- String constant CONSTANT.STORAGE.SESSION of the source (line 31). -/
def SESSION : String := "session"

/-- String constant CONSTANT.STORAGE.COOKIE of the source (line 32). -/
def COOKIE : String := "cookie"

/-- An Express-style request, restricted to the fields the middleware
touches.  The `session` and `cookies` fields are `none` when the host
middleware providing them is absent (JS `undefined`). -/
structure Req where
  method : String
  session : Option (List (String × String))
  cookies : Option (List (String × String))
  body : List (String × String)
  headers : List (String × String)
  currentCsrfToken : Option String
deriving DecidableEq

/-- The response-side effects the middleware can perform: status/body sent
by the failure hook, cookies set (name, value, options) and cookies
cleared. -/
structure Res where
  statusVal : Option Nat
  bodySent : Option String
  setCookies : List (String × String × List (String × String))
  clearedCookies : List String
deriving DecidableEq

/-- First-match association-list lookup, modelling JS property access on the
request maps; `none` is JS `undefined`. -/
def lookupAssoc : List (String × String) → String → Option String
  | [], _ => none
  | (k2, v) :: rest, k => if k2 = k then some v else lookupAssoc rest k

/-- JS `x || null` applied to a string-or-undefined value: `undefined` and
the empty string are falsy, so both collapse to `none`. -/
def orNull : Option String → Option String
  | some s => if s = "" then none else some s
  | none => none

/-- JS `x || y` on string-or-undefined values: the right operand is the
result exactly when the left one is falsy. -/
def jsOr : Option String → Option String → Option String
  | some s, b => if s = "" then b else some s
  | none, b => b

/-- JS `delete obj[k]` (and cookie removal) on an association list. -/
def eraseKey : List (String × String) → String → List (String × String)
  | [], _ => []
  | (k2, v) :: rest, k => if k2 = k then eraseKey rest k else (k2, v) :: eraseKey rest k

/-- JS `obj[k] = v` on an association list. -/
def setAssoc (l : List (String × String)) (k v : String) : List (String × String) :=
  (k, v) :: eraseKey l k

/-- The configuration record, mirroring the module-level `csrf` object of the
source (lines 55-124): parameter name, template variable name, storage kind
tag with its options, token byte length, and the three pluggable hooks. -/
structure Csrf where
  param : String
  value : String
  storageType : String
  storageOptions : List (String × String)
  tokenLength : Int
  protectCondition : Req → Bool
  getTransmitToken : Req → Option String
  errorResponse : Res → Res

/-- Default protection policy (lines 103-105): protect exactly the POST, PUT
and DELETE methods. -/
def defaultProtectCondition (req : Req) : Bool :=
  req.method == "POST" || req.method == "PUT" || req.method == "DELETE"

/-- Default submitted-token extractor (lines 111-113):
`req.body._csrf || req.headers['csrf-token']`.  Note that the body field
name is the literal string "_csrf", independent of the configured `param`. -/
def defaultGetTransmitToken (req : Req) : Option String :=
  jsOr (lookupAssoc req.body "_csrf") (lookupAssoc req.headers "csrf-token")

/-- Default failure hook (lines 121-123): send HTTP 403 with a fixed body and
do not invoke the continuation. -/
def defaultErrorResponse (res : Res) : Res :=
  { res with statusVal := some 403, bodySent := some "CSRF token invalid" }

/-- The initial value of the module-level `csrf` object (lines 55-124). -/
def defaultCsrf : Csrf :=
  { param := "_csrf"
    value := "csrfToken"
    storageType := SESSION
    storageOptions := []
    tokenLength := 16
    protectCondition := defaultProtectCondition
    getTransmitToken := defaultGetTransmitToken
    errorResponse := defaultErrorResponse }

/-- Reading the canonical token (lines 68-78): dispatch on the storage type;
for session storage return `req.session[param] || null`, for cookie storage
`req.cookies[param] || null`, otherwise warn and return null.  Accessing the
map when the host middleware is absent throws a JS TypeError, modelled as
`Except.error`. -/
def getToken (c : Csrf) (req : Req) : Except Unit (Option String) :=
  if c.storageType = SESSION then
    match req.session with
    | none => Except.error ()
    | some s => Except.ok (orNull (lookupAssoc s c.param))
  else if c.storageType = COOKIE then
    match req.cookies with
    | none => Except.error ()
    | some s => Except.ok (orNull (lookupAssoc s c.param))
  else
    Except.ok none

/-- Clearing the canonical token (lines 85-97): delete the session key, or
clear the cookie on the response, or warn and do nothing.  The session delete
throws when `req.session` is `undefined`. -/
def clearToken (c : Csrf) (req : Req) (res : Res) : Except Unit (Req × Res) :=
  if c.storageType = SESSION then
    match req.session with
    | none => Except.error ()
    | some s => Except.ok ({ req with session := some (eraseKey s c.param) }, res)
  else if c.storageType = COOKIE then
    Except.ok (req, { res with clearedCookies := c.param :: res.clearedCookies })
  else
    Except.ok (req, res)

/-- The normalisation the guard `!token` at line 221 applies to the extracted
submitted token: `undefined`, `null` and the empty string all count as
absent. -/
def truthySubmitted (c : Csrf) (req : Req) : Option String :=
  orNull (c.getTransmitToken req)

/-- How a middleware invocation ended: continuation called normally,
request rejected by the failure hook (continuation not called), or
continuation called with an error value. -/
inductive Outcome
  | proceeded
  | rejected
  | errored
deriving DecidableEq

/-- A storage operation on the canonical token, recorded in traces. -/
inductive SOp
  | readOp
  | clearOp
  | writeOp
deriving DecidableEq

/-- Result of running `protect`: the outcome, the updated request and
response, and the trace of canonical-token storage operations performed. -/
structure POut where
  outcome : Outcome
  reqOut : Req
  resOut : Res
  trace : List SOp
deriving DecidableEq

/-- The validate middleware `protect` (lines 216-233).  When the protection
policy applies, extract the submitted token; if it is falsy, or differs from
the canonical token read from storage, invoke the failure hook and stop
(the continuation is not called).  Otherwise clear the canonical token and
fall through to the continuation.  The JS `||` in the guard short-circuits:
the canonical token is read only when the submitted token is truthy.  A
TypeError thrown inside the block is caught and routed to `next(error)`. -/
def protect (c : Csrf) (req : Req) (res : Res) : POut :=
  if c.protectCondition req then
    match truthySubmitted c req with
    | none => ⟨Outcome.rejected, req, c.errorResponse res, []⟩
    | some t =>
      match getToken c req with
      | Except.error _ => ⟨Outcome.errored, req, res, [SOp.readOp]⟩
      | Except.ok canonical =>
        if canonical = some t then
          match clearToken c req res with
          | Except.error _ => ⟨Outcome.errored, req, res, [SOp.readOp, SOp.clearOp]⟩
          | Except.ok rr => ⟨Outcome.proceeded, rr.1, rr.2, [SOp.readOp, SOp.clearOp]⟩
        else ⟨Outcome.rejected, req, c.errorResponse res, [SOp.readOp]⟩
  else ⟨Outcome.proceeded, req, res, []⟩

/-- A user configuration passed to `generate` (lines 140-151): every field is
optional; an absent field leaves the corresponding field of the module-level
object unchanged by the object spread.  A supplied `storage` object carries
both the type tag and the options bag, as in the documented usage. -/
structure CsrfConfig where
  param : Option String
  value : Option String
  storage : Option (String × List (String × String))
  tokenLength : Option Int
  protectCondition : Option (Req → Bool)
  getTransmitToken : Option (Req → Option String)
  errorResponse : Option (Res → Res)

/-- Line 153: `csrf = { ...csrf, ...csrfConfig }`.  The module-level `csrf`
object (a single mutable binding shared by every middleware the module ever
produced) is overwritten by the merge of its current value with the new
configuration.  The result is the configuration subsequently used by
`protect`, `setTokenLocalsParam` and every previously returned issue
middleware. -/
def mergeConfig (c : Csrf) (cfg : CsrfConfig) : Csrf :=
  { param := cfg.param.getD c.param
    value := cfg.value.getD c.value
    storageType := (cfg.storage.map (fun st => st.1)).getD c.storageType
    storageOptions := (cfg.storage.map (fun st => st.2)).getD c.storageOptions
    tokenLength := cfg.tokenLength.getD c.tokenLength
    protectCondition := cfg.protectCondition.getD c.protectCondition
    getTransmitToken := cfg.getTransmitToken.getD c.getTransmitToken
    errorResponse := cfg.errorResponse.getD c.errorResponse }

/-- Lower-case hexadecimal digit for a value below 16, as produced by
Node's Buffer hex encoding. -/
def hexDigit (n : Nat) : Char :=
  if n < 10 then Char.ofNat (48 + n) else Char.ofNat (87 + n)

/-- Hex encoding of one byte: exactly two lower-case hex characters. -/
def byteToHex (b : Nat) : String :=
  String.mk [hexDigit (b / 16 % 16), hexDigit (b % 16)]

/-- Hex encoding of a byte sequence, as in `buffer.toString('hex')`. -/
def bytesToHex : List Nat → String
  | [] => ""
  | b :: bs => byteToHex b ++ bytesToHex bs

/-- Node's `crypto.randomBytes(n).toString('hex')` (line 166), with the
random source abstracted as a stream of bytes indexed by position.
`randomBytes` throws a RangeError when the requested size is negative;
with size `0` it succeeds and returns the empty buffer. -/
def randomBytesHex (entropy : Nat → Nat) (n : Int) : Except String String :=
  if n < 0 then Except.error "RangeError: size out of range"
  else Except.ok (bytesToHex ((List.range n.toNat).map entropy))

/-- The token value line 166 mints for a given configuration and random
stream (the successful case of `randomBytesHex`). -/
def mintedToken (c : Csrf) (entropy : Nat → Nat) : String :=
  bytesToHex ((List.range c.tokenLength.toNat).map entropy)

/-- Result of one run of the issue middleware: a configuration error thrown
before the try block, or the continuation invoked normally (with the
updated request/response, whether a storage write happened, and the newly
minted token if any), or the continuation invoked with a caught error. -/
inductive IssueResult
  | thrown (msg : String)
  | nextOk (reqOut : Req) (resOut : Res) (wrote : Bool) (minted : Option String)
  | nextErr (msg : String)
deriving DecidableEq

/-- The issue middleware returned by `generate` (lines 154-186), run with a
configuration `c` that is the module-level object after the `generate` call
(the closure's `csrfConfig.storage.type` and the global `csrf.storage.type`
agree, as they do whenever `c` is the most recently merged configuration).
First the storage prerequisite checks (lines 155-162) throw when the needed
host middleware is absent; then, inside the try block, if the canonical
token reads as falsy a fresh token is minted and written to the configured
storage and to `req.currentCsrfToken` (lines 165-180); finally the
continuation runs.  Errors inside the try block are routed to
`next(error)`. -/
def issue (c : Csrf) (entropy : Nat → Nat) (req : Req) (res : Res) : IssueResult :=
  if c.storageType = SESSION ∧ req.session = none then
    IssueResult.thrown "CSRF: Session middleware (e.g., express-session) is required when using session storage."
  else if c.storageType = COOKIE ∧ req.cookies = none then
    IssueResult.thrown "CSRF: cookie-parser middleware is required when using cookie storage."
  else
    match getToken c req with
    | Except.error _ => IssueResult.nextErr "TypeError"
    | Except.ok (some _) => IssueResult.nextOk req res false none
    | Except.ok none =>
      match randomBytesHex entropy c.tokenLength with
      | Except.error e => IssueResult.nextErr e
      | Except.ok token =>
        if c.storageType = SESSION then
          match req.session with
          | none => IssueResult.nextErr "TypeError"
          | some s =>
            IssueResult.nextOk
              { req with session := some (setAssoc s c.param token), currentCsrfToken := some token }
              res true (some token)
        else if c.storageType = COOKIE then
          IssueResult.nextOk
            { req with currentCsrfToken := some token }
            { res with setCookies := (c.param, token, c.storageOptions) :: res.setCookies }
            true (some token)
        else
          IssueResult.nextOk { req with currentCsrfToken := some token } res false (some token)

/-- The cookie jar the client presents on its next request, after applying
the response's cookie clears and cookie sets.  This models the HTTP cookie
round trip between two sequential requests in the same cookie scope. -/
def nextCookies (jar : List (String × String)) (res : Res) : List (String × String) :=
  res.setCookies.foldl (fun j sc => setAssoc j sc.1 sc.2.1)
    (res.clearedCookies.foldl (fun j n => eraseKey j n) jar)

/-- Step count of the left-to-right, short-circuit character scan performed
by the ordinary string (in)equality `token !== csrf.getToken(req)` at line
221: the scan stops at the first mismatching character, so the count is the
position of the first mismatch plus one (or the full length when the
strings are equal). -/
def strEqScanCost : List Char → List Char → Nat
  | [], [] => 0
  | [], _ :: _ => 0
  | _ :: _, [] => 0
  | a :: xs, b :: ys => 1 + (if a = b then strEqScanCost xs ys else 0)

/-! Helper lemmas about the association-list operations and the token
encoding. -/

theorem lookupAssoc_eraseKey (l : List (String × String)) (k : String) :
    lookupAssoc (eraseKey l k) k = none := by
  induction l with
  | nil => rfl
  | cons p rest ih =>
    by_cases h : p.1 = k
    · simpa [eraseKey, h] using ih
    · simpa [eraseKey, h, lookupAssoc] using ih

theorem lookupAssoc_setAssoc (l : List (String × String)) (k v : String) :
    lookupAssoc (setAssoc l k v) k = some v := by
  simp [setAssoc, lookupAssoc]

theorem byteToHex_length (b : Nat) : (byteToHex b).length = 2 := rfl

theorem bytesToHex_ne_empty (b : Nat) (bs : List Nat) : bytesToHex (b :: bs) ≠ "" := by
  intro h
  have hlen : (bytesToHex (b :: bs)).length = 0 := by rw [h]; rfl
  rw [bytesToHex, String.length_append, byteToHex_length] at hlen
  omega

theorem mintedToken_ne_empty (c : Csrf) (entropy : Nat → Nat) (h : 0 < c.tokenLength) :
    mintedToken c entropy ≠ "" := by
  unfold mintedToken
  cases hl : (List.range c.tokenLength.toNat).map entropy with
  | nil =>
    exfalso
    have hlen := congrArg List.length hl
    simp only [List.length_map, List.length_range, List.length_nil] at hlen
    omega
  | cons b bs => exact bytesToHex_ne_empty b bs

/-- On any rejection (submitted token falsy, or different from a canonical
value successfully read from storage) `protect` invokes the failure hook on
the response, leaves the request untouched, and its storage trace is empty
when the guard short-circuited and a lone read otherwise. -/
theorem protect_reject_eq (c : Csrf) (req : Req) (res : Res) (can : Option String)
    (hp : c.protectCondition req = true)
    (h : truthySubmitted c req = none ∨
         (getToken c req = Except.ok can ∧ can ≠ truthySubmitted c req)) :
    protect c req res =
      ⟨Outcome.rejected, req, c.errorResponse res,
       if truthySubmitted c req = none then [] else [SOp.readOp]⟩ := by
  cases ht : truthySubmitted c req with
  | none => simp [protect, hp, ht]
  | some t =>
    rcases h with h1 | ⟨hg, hne⟩
    · exact absurd ht (by simp [h1])
    · rw [ht] at hne
      have hcan : ¬(can = some t) := hne
      simp [protect, hp, ht, hg, hcan]

/-- C2: for every request the protection policy applies to, if the extracted
submitted token is absent (falsy) or differs from the canonical token read
from storage, `protect` invokes the failure hook — with the default hook the
response carries HTTP 403 and the fixed message — and the continuation is
never invoked (the outcome is `rejected`, not `proceeded`). -/
theorem protect_rejects_invalid (c : Csrf) (req : Req) (res : Res) (can : Option String)
    (hp : c.protectCondition req = true)
    (he : c.errorResponse = defaultErrorResponse)
    (h : truthySubmitted c req = none ∨
         (getToken c req = Except.ok can ∧ can ≠ truthySubmitted c req)) :
    (protect c req res).outcome = Outcome.rejected ∧
    (protect c req res).resOut = defaultErrorResponse res ∧
    (protect c req res).resOut.statusVal = some 403 ∧
    (protect c req res).resOut.bodySent = some "CSRF token invalid" ∧
    (protect c req res).reqOut = req := by
  rw [protect_reject_eq c req res can hp h]
  simp [he, defaultErrorResponse]

/-- C2 witness: a POST request with no submitted token anywhere, under the
default configuration, is rejected with the default 403 response. -/
theorem protect_rejects_invalid_witness :
    (protect defaultCsrf ⟨"POST", some [], some [], [], [], none⟩ ⟨none, none, [], []⟩).outcome
      = Outcome.rejected ∧
    (protect defaultCsrf ⟨"POST", some [], some [], [], [], none⟩ ⟨none, none, [], []⟩).resOut.statusVal
      = some 403 ∧
    (protect defaultCsrf ⟨"POST", some [], some [], [], [], none⟩ ⟨none, none, [], []⟩).resOut.bodySent
      = some "CSRF token invalid" := by
  have h := protect_rejects_invalid defaultCsrf
    ⟨"POST", some [], some [], [], [], none⟩ ⟨none, none, [], []⟩ none
    (by decide) rfl (Or.inl (by decide))
  exact ⟨h.1, h.2.2.1, h.2.2.2.1⟩

/-- C3: for every request the protection policy does not apply to, `protect`
performs no storage operation at all (no read, no clear: the trace is empty)
and invokes the continuation with the request and response untouched. -/
theorem protect_policy_bypass (c : Csrf) (req : Req) (res : Res)
    (hp : c.protectCondition req = false) :
    protect c req res = ⟨Outcome.proceeded, req, res, []⟩ := by
  simp [protect, hp]

/-- C3 witness: a GET request under the default policy bypasses validation
and proceeds without touching storage. -/
theorem protect_policy_bypass_witness :
    protect defaultCsrf ⟨"GET", some [("_csrf", "tok")], some [], [], [], none⟩ ⟨none, none, [], []⟩
      = ⟨Outcome.proceeded, ⟨"GET", some [("_csrf", "tok")], some [], [], [], none⟩,
         ⟨none, none, [], []⟩, []⟩ :=
  protect_policy_bypass defaultCsrf
    ⟨"GET", some [("_csrf", "tok")], some [], [], [], none⟩ ⟨none, none, [], []⟩ (by decide)

/-- C5: when `protect` rejects a protected request (submitted token absent or
mismatched), the canonical token in storage is left unchanged: the request
(and with it any session-stored token) is returned untouched, the response's
cookie mutations are untouched, the trace contains no clear and no write,
and the canonical token reads the same afterwards. -/
theorem protect_reject_frame (c : Csrf) (req : Req) (res : Res) (can : Option String)
    (hp : c.protectCondition req = true)
    (he : c.errorResponse = defaultErrorResponse)
    (h : truthySubmitted c req = none ∨
         (getToken c req = Except.ok can ∧ can ≠ truthySubmitted c req)) :
    (protect c req res).reqOut = req ∧
    (protect c req res).resOut.setCookies = res.setCookies ∧
    (protect c req res).resOut.clearedCookies = res.clearedCookies ∧
    SOp.clearOp ∉ (protect c req res).trace ∧
    SOp.writeOp ∉ (protect c req res).trace ∧
    getToken c (protect c req res).reqOut = getToken c req := by
  rw [protect_reject_eq c req res can hp h]
  by_cases ht : truthySubmitted c req = none <;>
    simp [ht, he, defaultErrorResponse]

/-- C5 witness: a POST request with a wrong submitted token, against a
session holding the canonical token, is left with the canonical token still
present and no cookie mutation. -/
theorem protect_reject_frame_witness :
    (protect defaultCsrf ⟨"POST", some [("_csrf", "good")], some [], [("_csrf", "bad")], [], none⟩
        ⟨none, none, [], []⟩).reqOut
      = ⟨"POST", some [("_csrf", "good")], some [], [("_csrf", "bad")], [], none⟩ ∧
    SOp.clearOp ∉ (protect defaultCsrf
        ⟨"POST", some [("_csrf", "good")], some [], [("_csrf", "bad")], [], none⟩
        ⟨none, none, [], []⟩).trace ∧
    getToken defaultCsrf (protect defaultCsrf
        ⟨"POST", some [("_csrf", "good")], some [], [("_csrf", "bad")], [], none⟩
        ⟨none, none, [], []⟩).reqOut
      = getToken defaultCsrf ⟨"POST", some [("_csrf", "good")], some [], [("_csrf", "bad")], [], none⟩ := by
  have h := protect_reject_frame defaultCsrf
    ⟨"POST", some [("_csrf", "good")], some [], [("_csrf", "bad")], [], none⟩
    ⟨none, none, [], []⟩ (some "good")
    (by decide) rfl (Or.inr ⟨rfl, by decide⟩)
  exact ⟨h.1, h.2.2.2.1, h.2.2.2.2.2⟩

/-- C10: for every request the protection policy applies to whose storage
scope holds no canonical token (the canonical read yields absent), `protect`
rejects regardless of the submitted token value, never clears storage, and
leaves the request untouched; the continuation is not invoked. -/
theorem protect_absent_canonical_rejects (c : Csrf) (req : Req) (res : Res)
    (hp : c.protectCondition req = true)
    (hg : getToken c req = Except.ok none) :
    (protect c req res).outcome = Outcome.rejected ∧
    (protect c req res).reqOut = req ∧
    (protect c req res).resOut = c.errorResponse res ∧
    SOp.clearOp ∉ (protect c req res).trace := by
  have h : truthySubmitted c req = none ∨
      (getToken c req = Except.ok none ∧ (none : Option String) ≠ truthySubmitted c req) := by
    by_cases ht : truthySubmitted c req = none
    · exact Or.inl ht
    · exact Or.inr ⟨hg, fun hcontra => ht hcontra.symm⟩
  rw [protect_reject_eq c req res none hp h]
  by_cases ht : truthySubmitted c req = none <;> simp [ht]

/-- C10 witness: a POST request submitting a well-formed token against an
empty session scope is rejected and nothing is cleared. -/
theorem protect_absent_canonical_rejects_witness :
    (protect defaultCsrf ⟨"POST", some [], some [], [("_csrf", "tok")], [], none⟩
        ⟨none, none, [], []⟩).outcome = Outcome.rejected ∧
    SOp.clearOp ∉ (protect defaultCsrf ⟨"POST", some [], some [], [("_csrf", "tok")], [], none⟩
        ⟨none, none, [], []⟩).trace := by
  have h := protect_absent_canonical_rejects defaultCsrf
    ⟨"POST", some [], some [], [("_csrf", "tok")], [], none⟩ ⟨none, none, [], []⟩
    (by decide) rfl
  exact ⟨h.1, h.2.2.2⟩

/-- C1: single use, for both storage variants.  When a protected request's
submitted token equals the canonical token of the configured scope,
`protect` clears the canonical token (session key deleted, respectively
cookie cleared on the response) before invoking the continuation, and any
second protected request presenting the same token value against the
now-cleared scope (the session as mutated, respectively the cookie jar
after the response round trip) is rejected: a token never validates twice. -/
theorem protect_single_use :
    (∀ (c : Csrf) (req reqB : Req) (res resB : Res) (s : List (String × String)) (t : String),
      c.storageType = SESSION →
      c.protectCondition req = true →
      truthySubmitted c req = some t →
      req.session = some s →
      orNull (lookupAssoc s c.param) = some t →
      (protect c req res).outcome = Outcome.proceeded ∧
      (protect c req res).reqOut.session = some (eraseKey s c.param) ∧
      getToken c (protect c req res).reqOut = Except.ok none ∧
      (c.protectCondition reqB = true →
       truthySubmitted c reqB = some t →
       reqB.session = (protect c req res).reqOut.session →
       (protect c reqB resB).outcome = Outcome.rejected)) ∧
    (∀ (c : Csrf) (req reqB : Req) (res resB : Res) (jar : List (String × String)) (t : String),
      c.storageType = COOKIE →
      c.protectCondition req = true →
      truthySubmitted c req = some t →
      req.cookies = some jar →
      orNull (lookupAssoc jar c.param) = some t →
      res.setCookies = [] →
      res.clearedCookies = [] →
      (protect c req res).outcome = Outcome.proceeded ∧
      (protect c req res).resOut.clearedCookies = [c.param] ∧
      (c.protectCondition reqB = true →
       truthySubmitted c reqB = some t →
       reqB.cookies = some (nextCookies jar (protect c req res).resOut) →
       (protect c reqB resB).outcome = Outcome.rejected)) := by
  constructor
  · intro c req reqB res resB s t hst hp ht hses hcan
    have hne : SESSION ≠ COOKIE := by decide
    have hgt : getToken c req = Except.ok (some t) := by
      simp [getToken, hst, hses, hcan]
    have hct : clearToken c req res =
        Except.ok ({ req with session := some (eraseKey s c.param) }, res) := by
      simp [clearToken, hst, hses]
    have hP : protect c req res =
        ⟨Outcome.proceeded, { req with session := some (eraseKey s c.param) }, res,
         [SOp.readOp, SOp.clearOp]⟩ := by
      simp [protect, hp, ht, hgt, hct]
    refine ⟨by rw [hP], by rw [hP], ?_, ?_⟩
    · rw [hP]
      simp [getToken, hst, lookupAssoc_eraseKey, orNull]
    · intro hpB htB hsesB
      rw [hP] at hsesB
      have hgB : getToken c reqB = Except.ok none := by
        simp [getToken, hst, hsesB, lookupAssoc_eraseKey, orNull]
      simp [protect, hpB, htB, hgB]
  · intro c req reqB res resB jar t hst hp ht hjar hcan hsc hcc
    have hne : COOKIE ≠ SESSION := by decide
    have hgt : getToken c req = Except.ok (some t) := by
      simp [getToken, hst, hne, hjar, hcan]
    have hct : clearToken c req res =
        Except.ok (req, { res with clearedCookies := c.param :: res.clearedCookies }) := by
      simp [clearToken, hst, hne]
    have hP : protect c req res =
        ⟨Outcome.proceeded, req, { res with clearedCookies := c.param :: res.clearedCookies },
         [SOp.readOp, SOp.clearOp]⟩ := by
      simp [protect, hp, ht, hgt, hct]
    refine ⟨by rw [hP], by rw [hP, hcc], ?_⟩
    intro hpB htB hjarB
    rw [hP] at hjarB
    have hjarB2 : reqB.cookies = some (eraseKey jar c.param) := by
      rw [hjarB]
      simp [nextCookies, hsc, hcc]
    have hgB : getToken c reqB = Except.ok none := by
      simp [getToken, hst, hne, hjarB2, lookupAssoc_eraseKey, orNull]
    simp [protect, hpB, htB, hgB]

/-- C1 witness: under the default (session) configuration a POST with the
matching token proceeds and consumes the token, and replaying the same token
is rejected; likewise under a cookie configuration across the response
round trip. -/
theorem protect_single_use_witness :
    (protect defaultCsrf ⟨"POST", some [("_csrf", "tok")], some [], [("_csrf", "tok")], [], none⟩
        ⟨none, none, [], []⟩).outcome = Outcome.proceeded ∧
    (protect defaultCsrf ⟨"POST", some [], some [], [("_csrf", "tok")], [], none⟩
        ⟨none, none, [], []⟩).outcome = Outcome.rejected ∧
    (protect { defaultCsrf with storageType := COOKIE }
        ⟨"POST", some [], some [("_csrf", "tok")], [("_csrf", "tok")], [], none⟩
        ⟨none, none, [], []⟩).outcome = Outcome.proceeded ∧
    (protect { defaultCsrf with storageType := COOKIE }
        ⟨"POST", some [], some [], [("_csrf", "tok")], [], none⟩
        ⟨none, none, [], []⟩).outcome = Outcome.rejected := by
  have h1 := protect_single_use.1 defaultCsrf
    ⟨"POST", some [("_csrf", "tok")], some [], [("_csrf", "tok")], [], none⟩
    ⟨"POST", some [], some [], [("_csrf", "tok")], [], none⟩
    ⟨none, none, [], []⟩ ⟨none, none, [], []⟩ [("_csrf", "tok")] "tok"
    rfl (by decide) rfl rfl (by decide)
  have h2 := protect_single_use.2 { defaultCsrf with storageType := COOKIE }
    ⟨"POST", some [], some [("_csrf", "tok")], [("_csrf", "tok")], [], none⟩
    ⟨"POST", some [], some [], [("_csrf", "tok")], [], none⟩
    ⟨none, none, [], []⟩ ⟨none, none, [], []⟩ [("_csrf", "tok")] "tok"
    rfl (by decide) rfl rfl (by decide) rfl rfl
  exact ⟨h1.1, h1.2.2.2 (by decide) rfl (by decide), h2.1, h2.2.2 (by decide) rfl (by decide)⟩

/-- C4: idempotent issue, for both storage variants.  Starting from a scope
holding no canonical token, the first run of the issue middleware mints a
token and performs the single storage write; a second run in sequence on the
same scope (the mutated session, respectively the cookie jar after the
response round trip) reads that same token back, performs no second write
and mints nothing, so the canonical token value is the same both times —
even if the random stream differs between the runs. -/
theorem issue_idempotent :
    (∀ (c : Csrf) (e1 e2 : Nat → Nat) (req : Req) (res resB : Res) (s : List (String × String)),
      c.storageType = SESSION →
      0 < c.tokenLength →
      req.session = some s →
      orNull (lookupAssoc s c.param) = none →
      issue c e1 req res =
        IssueResult.nextOk
          { req with session := some (setAssoc s c.param (mintedToken c e1)),
                     currentCsrfToken := some (mintedToken c e1) }
          res true (some (mintedToken c e1)) ∧
      getToken c { req with session := some (setAssoc s c.param (mintedToken c e1)),
                            currentCsrfToken := some (mintedToken c e1) } =
        Except.ok (some (mintedToken c e1)) ∧
      issue c e2 { req with session := some (setAssoc s c.param (mintedToken c e1)),
                            currentCsrfToken := some (mintedToken c e1) } resB =
        IssueResult.nextOk
          { req with session := some (setAssoc s c.param (mintedToken c e1)),
                     currentCsrfToken := some (mintedToken c e1) }
          resB false none) ∧
    (∀ (c : Csrf) (e1 e2 : Nat → Nat) (req reqB : Req) (res resB : Res) (jar : List (String × String)),
      c.storageType = COOKIE →
      0 < c.tokenLength →
      req.cookies = some jar →
      orNull (lookupAssoc jar c.param) = none →
      res.setCookies = [] →
      res.clearedCookies = [] →
      issue c e1 req res =
        IssueResult.nextOk { req with currentCsrfToken := some (mintedToken c e1) }
          { res with setCookies := [(c.param, mintedToken c e1, c.storageOptions)] }
          true (some (mintedToken c e1)) ∧
      (reqB.cookies =
         some (nextCookies jar
           { res with setCookies := [(c.param, mintedToken c e1, c.storageOptions)] }) →
       getToken c reqB = Except.ok (some (mintedToken c e1)) ∧
       issue c e2 reqB resB = IssueResult.nextOk reqB resB false none)) := by
  constructor
  · intro c e1 e2 req res resB s hst hlen hses hcan
    have hne : SESSION ≠ COOKIE := by decide
    have htok : mintedToken c e1 ≠ "" := mintedToken_ne_empty c e1 hlen
    have hg1 : getToken c req = Except.ok none := by
      simp [getToken, hst, hses, hcan]
    have hrb : randomBytesHex e1 c.tokenLength = Except.ok (mintedToken c e1) := by
      simp [randomBytesHex, mintedToken]
      omega
    have hw : issue c e1 req res =
        IssueResult.nextOk
          { req with session := some (setAssoc s c.param (mintedToken c e1)),
                     currentCsrfToken := some (mintedToken c e1) }
          res true (some (mintedToken c e1)) := by
      simp [issue, hst, hses, hne, hg1, hrb]
    have hg2 : getToken c { req with session := some (setAssoc s c.param (mintedToken c e1)),
                                     currentCsrfToken := some (mintedToken c e1) } =
        Except.ok (some (mintedToken c e1)) := by
      simp [getToken, hst, lookupAssoc_setAssoc, orNull, htok]
    refine ⟨hw, hg2, ?_⟩
    simp [issue, hst, hne, hg2]
  · intro c e1 e2 req reqB res resB jar hst hlen hjar hcan hsc hcc
    have hne : COOKIE ≠ SESSION := by decide
    have htok : mintedToken c e1 ≠ "" := mintedToken_ne_empty c e1 hlen
    have hg1 : getToken c req = Except.ok none := by
      simp [getToken, hst, hne, hjar, hcan]
    have hrb : randomBytesHex e1 c.tokenLength = Except.ok (mintedToken c e1) := by
      simp [randomBytesHex, mintedToken]
      omega
    have hw : issue c e1 req res =
        IssueResult.nextOk { req with currentCsrfToken := some (mintedToken c e1) }
          { res with setCookies := [(c.param, mintedToken c e1, c.storageOptions)] }
          true (some (mintedToken c e1)) := by
      simp [issue, hst, hne, hjar, hg1, hrb, hsc]
    refine ⟨hw, ?_⟩
    intro hjarB
    have hjarB2 : reqB.cookies = some (setAssoc jar c.param (mintedToken c e1)) := by
      rw [hjarB]
      simp [nextCookies, hcc]
    have hgB : getToken c reqB = Except.ok (some (mintedToken c e1)) := by
      simp [getToken, hst, hne, hjarB2, lookupAssoc_setAssoc, orNull, htok]
    refine ⟨hgB, ?_⟩
    simp [issue, hst, hne, hjarB2, hgB]

/-- Concrete random streams and requests for the C4 witness. -/
def c4e1 : Nat → Nat := fun _ => 0

def c4e2 : Nat → Nat := fun _ => 255

def c4Req : Req := ⟨"GET", some [], some [], [], [], none⟩

def c4Res : Res := ⟨none, none, [], []⟩

def c4ReqOut : Req :=
  { c4Req with session := some (setAssoc [] defaultCsrf.param (mintedToken defaultCsrf c4e1)),
               currentCsrfToken := some (mintedToken defaultCsrf c4e1) }

def c4Cookie : Csrf := { defaultCsrf with storageType := COOKIE }

def c4ResOut : Res :=
  { c4Res with setCookies := [(c4Cookie.param, mintedToken c4Cookie c4e1, c4Cookie.storageOptions)] }

def c4ReqB : Req := ⟨"GET", some [], some (nextCookies [] c4ResOut), [], [], none⟩

/-- C4 witness: under the default session configuration and under a cookie
configuration, a first issue run mints and writes once and a second run (with
a different random stream) rewrites nothing and mints nothing. -/
theorem issue_idempotent_witness :
    issue defaultCsrf c4e1 c4Req c4Res =
      IssueResult.nextOk c4ReqOut c4Res true (some (mintedToken defaultCsrf c4e1)) ∧
    issue defaultCsrf c4e2 c4ReqOut c4Res =
      IssueResult.nextOk c4ReqOut c4Res false none ∧
    issue c4Cookie c4e1 c4Req c4Res =
      IssueResult.nextOk { c4Req with currentCsrfToken := some (mintedToken c4Cookie c4e1) }
        c4ResOut true (some (mintedToken c4Cookie c4e1)) ∧
    issue c4Cookie c4e2 c4ReqB c4Res =
      IssueResult.nextOk c4ReqB c4Res false none := by
  have h1 := issue_idempotent.1 defaultCsrf c4e1 c4e2 c4Req c4Res c4Res []
    rfl (by decide) rfl rfl
  have h2 := issue_idempotent.2 c4Cookie c4e1 c4e2 c4Req c4ReqB c4Res c4Res []
    rfl (by decide) rfl rfl rfl rfl
  exact ⟨h1.1, h1.2.2, h2.1, (h2.2 rfl).2⟩

/-- Configuration with token length 0 for the C9 counterexample. -/
def zeroLenCsrf : Csrf := { defaultCsrf with tokenLength := 0 }

def c9Entropy : Nat → Nat := fun _ => 0

def c9Req : Req := ⟨"GET", some [], some [], [], [], none⟩

def c9Res : Res := ⟨none, none, [], []⟩

/-- C9 counterexample: with the non-positive configured token length 0 the
issue middleware raises no error at all — `crypto.randomBytes(0)` succeeds
with an empty buffer, so the middleware mints the empty-string token, writes
it to the session and invokes the continuation normally. -/
theorem issue_zero_length_counterexample :
    zeroLenCsrf.tokenLength ≤ 0 ∧
    issue zeroLenCsrf c9Entropy c9Req c9Res =
      IssueResult.nextOk ⟨"GET", some [("_csrf", "")], some [], [], [], some ""⟩
        c9Res true (some "") :=
  ⟨by decide, rfl⟩

/-- C9 amended: for every configured token length strictly below zero, when
the canonical token is absent so that minting is attempted, the issue
middleware raises a RangeError from the random source, caught and passed to
the host's error channel (`next(error)`) — no token is produced. -/
theorem issue_negative_length_errors (c : Csrf) (entropy : Nat → Nat) (req : Req) (res : Res)
    (hneg : c.tokenLength < 0)
    (hg : getToken c req = Except.ok none) :
    issue c entropy req res = IssueResult.nextErr "RangeError: size out of range" := by
  have hrb : randomBytesHex entropy c.tokenLength =
      Except.error "RangeError: size out of range" := by
    simp [randomBytesHex, hneg]
  have hnc : ¬(SESSION = COOKIE) := by decide
  have hcs : ¬(COOKIE = SESSION) := by decide
  by_cases h1 : c.storageType = SESSION
  · cases hses : req.session with
    | none =>
      exfalso
      rw [getToken, if_pos h1, hses] at hg
      exact Except.noConfusion hg
    | some s =>
      simp [issue, h1, hses, hg, hrb, hnc]
  · by_cases h2 : c.storageType = COOKIE
    · cases hck : req.cookies with
      | none =>
        exfalso
        rw [getToken, if_neg h1, if_pos h2, hck] at hg
        exact Except.noConfusion hg
      | some s =>
        simp [issue, h1, h2, hck, hg, hrb, hcs]
    · simp [issue, h1, h2, hg, hrb]

/-- C9 amended witness: token length -1 with an empty session scope makes the
issue middleware hand a RangeError to the error channel. -/
theorem issue_negative_length_errors_witness :
    issue { defaultCsrf with tokenLength := -1 } c9Entropy c9Req c9Res =
      IssueResult.nextErr "RangeError: size out of range" :=
  issue_negative_length_errors { defaultCsrf with tokenLength := -1 } c9Entropy c9Req c9Res
    (by decide) rfl

/-- C6: the token comparison of `protect` (line 221) is the ordinary
JavaScript string inequality, a left-to-right scan that stops at the first
mismatching character.  On two pairs of equal-length strings the scan's step
count is 1 when the first characters differ and 4 when the strings differ
only at the fourth character: the cost varies with the position of the first
mismatched byte, so the comparison is not constant-time. -/
theorem strEqScanCost_varies :
    ("a123".toList).length = ("b123".toList).length ∧
    ("a123".toList).length = ("a12x".toList).length ∧
    strEqScanCost ("a123".toList) ("b123".toList) = 1 ∧
    strEqScanCost ("a123".toList) ("a12x".toList) = 4 ∧
    strEqScanCost ("a123".toList) ("b123".toList) ≠
      strEqScanCost ("a123".toList) ("a12x".toList) := by
  decide

/-- First user configuration for the C7 theorem: session storage under the
parameter name a_csrf with 8-byte tokens. -/
def cfgA : CsrfConfig := ⟨some "a_csrf", none, some (SESSION, []), some 8, none, none, none⟩

/-- Second user configuration for the C7 theorem: cookie storage under the
parameter name b_csrf with 32-byte tokens. -/
def cfgB : CsrfConfig := ⟨some "b_csrf", none, some (COOKIE, []), some 32, none, none, none⟩

def c7Req : Req := ⟨"POST", some [("a_csrf", "tok")], some [], [("_csrf", "tok")], [], none⟩

def c7Res : Res := ⟨none, none, [], []⟩

/-- C7: the configuration is a shared mutable module-level object, not
immutable per instance.  `generate` executes `csrf = { ...csrf, ...cfg }`
(line 153) against the single module-level binding consulted by `protect`
and by every previously returned middleware, so constructing a second
middleware with configuration `cfgB` changes the parameter name, storage
kind and token length that the first instance's operations subsequently
use: a request that validated under the first instance's configuration is
rejected once the second instance has been constructed. -/
theorem global_config_overwritten :
    (protect (mergeConfig defaultCsrf cfgA) c7Req c7Res).outcome = Outcome.proceeded ∧
    (protect (mergeConfig (mergeConfig defaultCsrf cfgA) cfgB) c7Req c7Res).outcome
      = Outcome.rejected ∧
    (mergeConfig (mergeConfig defaultCsrf cfgA) cfgB).param
      ≠ (mergeConfig defaultCsrf cfgA).param ∧
    (mergeConfig (mergeConfig defaultCsrf cfgA) cfgB).storageType
      ≠ (mergeConfig defaultCsrf cfgA).storageType ∧
    (mergeConfig (mergeConfig defaultCsrf cfgA) cfgB).tokenLength
      ≠ (mergeConfig defaultCsrf cfgA).tokenLength :=
  ⟨rfl, rfl, by decide, by decide, by decide⟩

/-- Configuration with a customised parameter name for the C8 theorem. -/
def c8ParamCsrf : Csrf := { defaultCsrf with param := "custom_token" }

def c8Req : Req := ⟨"POST", some [("custom_token", "secret")], some [], [("custom_token", "secret")], [], none⟩

def c8Res : Res := ⟨none, none, [], []⟩

/-- C8: the default extractor reads the literal body field "_csrf" — it does
not consult the configured parameter name at all (it is not even a function
of the configuration).  With `param` customised to custom_token, a request
carrying the correct token in the body field custom_token (and in the
custom_token storage scope) extracts nothing and is rejected.  The remaining
parts of the claim do hold: the body field takes precedence over the
csrf-token header, the header is the fallback, and the extractor yields
absent when neither is present. -/
theorem transmitToken_ignores_param :
    defaultGetTransmitToken c8Req = none ∧
    lookupAssoc c8Req.body "custom_token" = some "secret" ∧
    (protect c8ParamCsrf c8Req c8Res).outcome = Outcome.rejected ∧
    defaultGetTransmitToken ⟨"POST", some [], some [], [("_csrf", "b")], [("csrf-token", "h")], none⟩
      = some "b" ∧
    defaultGetTransmitToken ⟨"POST", some [], some [], [], [("csrf-token", "h")], none⟩
      = some "h" ∧
    defaultGetTransmitToken ⟨"POST", some [], some [], [], [], none⟩ = none := by
  decide

end Knfs
